import Mathlib

/-
Verification development for the id3c database layer
(`lib/id3c/db/__init__.py`): the identifier minting loop
(`mint_identifiers`) and the sample merge-upsert (`upsert_sample`).

The database is embedded shallowly:

* the `warehouse.identifier_set` table is a list of `IdentifierSetRow`;
  `session.fetch_row` on the name-lookup query is `fetchSet` (first row
  whose name matches);
* the `warehouse.identifier` table is a list of `IdentifierRow`; the
  store-side behaviour of each `insert ... returning uuid, barcode,
  generated` (the uuid/barcode are generated by the database, and the
  barcode exclusion constraint may fire) is an oracle entry of type
  `InsertOutcome`; the while-loop of `mint_identifiers` is `mintLoop`,
  structurally recursive on the oracle list, with `MintResult.outOfOracle`
  standing for a run whose retry loop is still going when the oracle ends;
* the `warehouse.sample` table is a list of `Sample`; the lookup query
  `where identifier = %(identifier)s or collection_identifier =
  %(collection_identifier)s` is the filter by `sampleMatches`, with SQL
  null-equality semantics (`sqlEqOpt`): a comparison against NULL is
  never true;
* jsonb values are `Jval`, jsonb objects are association lists, and the
  jsonb concatenation operator `||` used for the details merge is
  `jsonbConcat`;
* the SQL function `date_or_null` lives in the warehouse schema, outside
  this repository, so it is passed to `upsert_sample` as a parameter
  `date_or_null : Option String → Option Nat` (dates are abstract `Nat`
  codes); the claims quantify over it.
-/

/-- A row of `warehouse.identifier_set`: `identifier_set_id`, `name`. -/
structure IdentifierSetRow where
  identifier_set_id : Nat
  name : String
deriving Repr, DecidableEq

/-- A row of `warehouse.identifier`: the store-generated `uuid`,
`barcode` and `generated` timestamp, plus the `identifier_set_id` the
insert binds it to. -/
structure IdentifierRow where
  uuid : String
  barcode : String
  generated : Nat
  identifier_set_id : Nat
deriving Repr, DecidableEq

/-- The store response to one
`insert into warehouse.identifier (identifier_set_id, generated) values (...)
returning uuid, barcode, generated`: either a fresh row (with the
store-chosen uuid, barcode and timestamp) or an `ExclusionViolation`
raised by the barcode exclusion constraint. -/
inductive InsertOutcome where
  | success (uuid : String) (barcode : String) (generated : Nat)
  | exclusionViolation
deriving Repr, DecidableEq

/-- Result of `mint_identifiers`.  `setNotFound` is the raised
`IdentifierSetNotFoundError` (it carries the requested name; the table
is returned unchanged to record that nothing was inserted).
`zeroDivision` is the `ZeroDivisionError` raised after the loop by the
telemetry line `per_identifier = duration.total_seconds() / n` when
`n = 0`.  `outOfOracle` means the oracle ended while the retry loop was
still running (the loop has no cap, so a real run may spin forever). -/
inductive MintResult where
  | setNotFound (name : String) (table : List IdentifierRow)
  | outOfOracle
  | zeroDivision (table : List IdentifierRow) (minted : List IdentifierRow)
  | ok (table : List IdentifierRow) (minted : List IdentifierRow)
       (failures : List (Nat × Nat))
deriving Repr, DecidableEq

/-- `failures.setdefault(m, 0); failures[m] += 1` on the dict of per-slot
retry counters, as an association list keyed by slot index. -/
def bumpFailure (failures : List (Nat × Nat)) (m : Nat) : List (Nat × Nat) :=
  if failures.any (fun p => p.1 == m) then
    failures.map (fun p => if p.1 == m then (p.1, p.2 + 1) else p)
  else
    failures ++ [(m, 1)]

/-- The `while len(minted) < n` loop of `mint_identifiers`, one oracle
entry per attempted insert.  On success the savepoint commits: the row
joins the table and the minted list.  On an `ExclusionViolation` the
savepoint rolls back: table and minted list are untouched and the
per-slot counter for slot `len(minted) + 1` is bumped.  After the loop,
`n = 0` makes the telemetry line divide by zero. -/
def mintLoop (setId : Nat) (n : Int) (table minted : List IdentifierRow)
    (failures : List (Nat × Nat)) : List InsertOutcome → MintResult
  | [] =>
    if (minted.length : Int) < n then .outOfOracle
    else if n = 0 then .zeroDivision table minted
    else .ok table minted failures
  | o :: rest =>
    if (minted.length : Int) < n then
      match o with
      | .success uuid barcode gen =>
        mintLoop setId n (table ++ [⟨uuid, barcode, gen, setId⟩])
          (minted ++ [⟨uuid, barcode, gen, setId⟩]) failures rest
      | .exclusionViolation =>
        mintLoop setId n table minted
          (bumpFailure failures (minted.length + 1)) rest
    else if n = 0 then .zeroDivision table minted
    else .ok table minted failures

/-- `session.fetch_row("select identifier_set_id as id from
warehouse.identifier_set where name = %s", (name,))`. -/
def fetchSet (registry : List IdentifierSetRow) (name : String) : Option Nat :=
  (registry.find? (fun r => r.name == name)).map (fun r => r.identifier_set_id)

/-- `mint_identifiers(session, name, n)`: look the set up by name,
raise `IdentifierSetNotFoundError(name)` when absent, else run the
minting loop against the oracle. -/
def mint_identifiers (registry : List IdentifierSetRow)
    (table : List IdentifierRow) (name : String) (n : Int)
    (oracle : List InsertOutcome) : MintResult :=
  match fetchSet registry name with
  | none => .setNotFound name table
  | some setId => mintLoop setId n table [] [] oracle

/-- A jsonb value; objects are association lists of fields. -/
inductive Jval where
  | null
  | bool (b : Bool)
  | num (n : Int)
  | str (s : String)
  | obj (fields : List (String × Jval))
deriving Repr

/-- Key lookup in a jsonb object (first matching field). -/
def jLookup (k : String) (l : List (String × Jval)) : Option Jval :=
  (l.find? (fun kv => kv.1 == k)).map (fun kv => kv.2)

/-- The jsonb concatenation `a || b`: every top-level key of `b`
overwrites the same-named key of `a`; keys of `a` absent from `b`
survive.  Nested objects are replaced wholesale, never deep-merged. -/
def jsonbConcat (a b : List (String × Jval)) : List (String × Jval) :=
  a.filter (fun kv => !(b.any (fun kv2 => kv2.1 == kv.1))) ++ b

/-- A row of `warehouse.sample`. -/
structure Sample where
  id : Nat
  identifier : Option String
  collection_identifier : Option String
  collected : Option Nat
  encounter_id : Option Int
  details : Option (List (String × Jval))
deriving Repr

/-- The row shape returned by the lookup / `returning` clauses of
`upsert_sample`: `sample_id as id, identifier, collection_identifier,
encounter_id`. -/
structure SampleRef where
  id : Nat
  identifier : Option String
  collection_identifier : Option String
  encounter_id : Option Int
deriving Repr

/-- Project a sample row onto the columns `upsert_sample` selects and
returns. -/
def sampleRef (s : Sample) : SampleRef :=
  ⟨s.id, s.identifier, s.collection_identifier, s.encounter_id⟩

/-- SQL equality between two nullable strings: NULL compares equal to
nothing, not even to NULL. -/
def sqlEqOpt (a b : Option String) : Bool :=
  match a, b with
  | some x, some y => x == y
  | _, _ => false

/-- The lookup predicate `identifier = %(identifier)s or
collection_identifier = %(collection_identifier)s` applied to a row. -/
def sampleMatches (identifier collection_identifier : Option String)
    (s : Sample) : Bool :=
  sqlEqOpt s.identifier identifier
    || sqlEqOpt s.collection_identifier collection_identifier

/-- The `set` clause of the update branch of `upsert_sample`, applied to
one row `r` (SQL applies it to every row whose `sample_id` matches):
identifier columns are overwritten only under `update_identifiers`;
`collected = coalesce(date_or_null(%(collection_date)s), collected)`;
`encounter_id = coalesce(%(encounter_id)s, encounter_id)`;
`details = coalesce(details, {}) || %(additional_details)s`. -/
def applyUpdate (update_identifiers : Bool)
    (identifier collection_identifier : Option String)
    (parsed_date : Option Nat) (encounter_id : Option Int)
    (additional_details : List (String × Jval)) (r : Sample) : Sample :=
  { id := r.id
    identifier := if update_identifiers then identifier else r.identifier
    collection_identifier :=
      if update_identifiers then collection_identifier
      else r.collection_identifier
    collected :=
      match parsed_date with
      | some d => some d
      | none => r.collected
    encounter_id :=
      match encounter_id with
      | some e => some e
      | none => r.encounter_id
    details := some (jsonbConcat (r.details.getD []) additional_details) }

/-- Result of `upsert_sample`: either the new table state together with
the returned row and status string, or the raised "More than one sample
matching" exception, which carries the matched rows (and the table,
unchanged, to record that no mutation happened). -/
inductive UpsertResult where
  | ok (db : List Sample) (sample : SampleRef) (status : String)
  | ambiguous (db : List Sample) (matched : List SampleRef)
deriving Repr

/-- `upsert_sample(db, update_identifiers, identifier,
collection_identifier, collection_date, encounter_id,
additional_details)`.  `nextId` is the `sample_id` the store would
assign to an inserted row; `date_or_null` is the warehouse SQL function
of the same name, passed in because it is defined outside this
repository. -/
def upsert_sample (db : List Sample) (nextId : Nat)
    (update_identifiers : Bool)
    (identifier collection_identifier : Option String)
    (collection_date : Option String) (encounter_id : Option Int)
    (additional_details : List (String × Jval))
    (date_or_null : Option String → Option Nat) : UpsertResult :=
  match db.filter (sampleMatches identifier collection_identifier) with
  | [] =>
    let s : Sample :=
      ⟨nextId, identifier, collection_identifier,
        date_or_null collection_date, encounter_id,
        some additional_details⟩
    .ok (db ++ [s]) (sampleRef s) "created"
  | [s] =>
    let upd := applyUpdate update_identifiers identifier
      collection_identifier (date_or_null collection_date) encounter_id
      additional_details
    .ok (db.map (fun r => if r.id == s.id then upd r else r))
      (sampleRef (upd s)) "updated"
  | matched =>
    .ambiguous db (matched.map sampleRef)

theorem find?_filter_of_imp {α : Type} (l : List α) (p q : α → Bool)
    (h : ∀ x ∈ l, p x = true → q x = true) :
    (l.filter q).find? p = l.find? p := by
  induction l with
  | nil => rfl
  | cons x tl ih =>
    have ih' := ih (fun y hy => h y (List.mem_cons_of_mem x hy))
    by_cases hq : q x = true
    · rw [List.filter_cons_of_pos hq, List.find?_cons, List.find?_cons]
      cases p x <;> simp [ih']
    · have hp : p x = false := by
        cases hpx : p x
        · rfl
        · exact absurd (h x (List.mem_cons_self x tl) hpx) hq
      rw [List.filter_cons_of_neg hq, List.find?_cons, hp, ih']

theorem jLookup_append (k : String) (a b : List (String × Jval)) :
    jLookup k (a ++ b)
      = (jLookup k a).or (jLookup k b) := by
  simp only [jLookup, List.find?_append]
  exact Option.map_or

/-- Pointwise semantics of the jsonb concatenation used for the details
merge: the value at a top-level key of `a || b` is the value in `b` when
`b` has that key, and the value in `a` otherwise. -/
theorem jLookup_jsonbConcat (k : String) (a b : List (String × Jval)) :
    jLookup k (jsonbConcat a b)
      = (jLookup k b).or (jLookup k a) := by
  rw [jsonbConcat, jLookup_append]
  cases hb : jLookup k b with
  | some w =>
    simp only [jLookup] at hb
    obtain ⟨kv, hkv, _⟩ := Option.map_eq_some'.mp hb
    have hkvk := List.find?_some hkv
    have hkvmem : kv ∈ b := List.mem_of_find?_eq_some hkv
    have hnone :
        jLookup k (a.filter fun kv => !(b.any fun kv2 => kv2.1 == kv.1))
          = none := by
      rw [jLookup, Option.map_eq_none']
      apply List.find?_eq_none.mpr
      intro x hx hpx
      have hxq := (List.mem_filter.mp hx).2
      have hany : (b.any fun kv2 => kv2.1 == x.1) = true := by
        apply List.any_eq_true.mpr
        refine ⟨kv, hkvmem, ?_⟩
        have h1 : kv.1 = k := eq_of_beq hkvk
        have h2 : x.1 = k := eq_of_beq hpx
        simp [h1, h2]
      rw [hany] at hxq
      simp at hxq
    rw [hnone, Option.none_or]
    rfl
  | none =>
    have hfind : (b.find? fun kv => kv.1 == k) = none := by
      rw [jLookup, Option.map_eq_none'] at hb
      exact hb
    have hball := List.find?_eq_none.mp hfind
    have heq :
        ((a.filter fun kv => !(b.any fun kv2 => kv2.1 == kv.1)).find?
            fun kv => kv.1 == k)
          = a.find? fun kv => kv.1 == k := by
      apply find?_filter_of_imp
      intro x _ hpx
      have hx1 : x.1 = k := eq_of_beq hpx
      cases hany : (b.any fun kv2 => kv2.1 == x.1) with
      | false => rfl
      | true =>
        obtain ⟨y, hy, hyk⟩ := List.any_eq_true.mp hany
        rw [hx1] at hyk
        exact absurd hyk (hball y hy)
    rw [jLookup, heq, Option.or_none]
    rfl

/-- Once `len(minted) >= n` the loop exits; when `n` is nonzero the
telemetry succeeds and the minted list is returned. -/
theorem mintLoop_done (setId : Nat) (n : Int)
    (table minted : List IdentifierRow) (failures : List (Nat × Nat))
    (oracle : List InsertOutcome)
    (h1 : ¬ ((minted.length : Int) < n)) (h2 : ¬ (n = 0)) :
    mintLoop setId n table minted failures oracle
      = .ok table minted failures := by
  cases oracle <;> simp [mintLoop, h1, h2]

/-- C1: the claim says `mint(name, n)` returns exactly `n` identifiers
for every existing set name and every `n ≥ 0`.  The code violates this
at `n = 0`: the loop body never runs, and the telemetry line
`per_identifier = duration.total_seconds() / n` then raises
`ZeroDivisionError`, so the call fails instead of returning the empty
sequence.  This theorem evaluates the embedded code at the failing
input: registry containing the set "kits", empty identifier table,
`n = 0`. -/
theorem mint_zero_raises_zero_division :
    mint_identifiers [⟨1, "kits"⟩] [] "kits" 0 []
      = .zeroDivision [] [] := rfl

/-- C6: for every `n` and every oracle, minting against a set name that
matches zero registry rows raises the set-not-found error carrying the
requested name, and inserts nothing (the identifier table is returned
unchanged). -/
theorem mint_unknown_set_fails (registry : List IdentifierSetRow)
    (table : List IdentifierRow) (name : String) (n : Int)
    (oracle : List InsertOutcome)
    (h : fetchSet registry name = none) :
    mint_identifiers registry table name n oracle
      = .setNotFound name table := by
  simp [mint_identifiers, h]

theorem mint_unknown_set_fails_witness :
    fetchSet [⟨1, "kits"⟩] "does-not-exist" = none
    ∧ mint_identifiers [⟨1, "kits"⟩]
        [⟨"u0", "b0", 3, 1⟩] "does-not-exist" 4
        [.success "u1" "b1" 5]
        = .setNotFound "does-not-exist" [⟨"u0", "b0", 3, 1⟩] :=
  ⟨rfl, mint_unknown_set_fails [⟨1, "kits"⟩] [⟨"u0", "b0", 3, 1⟩]
    "does-not-exist" 4 [.success "u1" "b1" 5] rfl⟩

/-- C10: for every negative `n`, mint still performs the registry
lookup first — an unknown name fails with the set-not-found error — and
for an existing name the while-loop body never runs, so the call
returns the empty minted list, inserts nothing, and raises no error
(the telemetry division is fine because `n ≠ 0`). -/
theorem mint_negative_n (registry : List IdentifierSetRow)
    (table : List IdentifierRow) (name : String) (n : Int)
    (oracle : List InsertOutcome) (hn : n < 0) :
    (fetchSet registry name = none →
      mint_identifiers registry table name n oracle
        = .setNotFound name table)
    ∧ (∀ setId, fetchSet registry name = some setId →
      mint_identifiers registry table name n oracle
        = .ok table [] []) := by
  constructor
  · intro h
    simp [mint_identifiers, h]
  · intro setId h
    simp only [mint_identifiers, h]
    apply mintLoop_done
    · simp only [List.length_nil, Nat.cast_zero]
      omega
    · omega

theorem mint_negative_n_witness :
    ((-2 : Int) < 0)
    ∧ ((fetchSet [⟨1, "kits"⟩] "nope" = none →
        mint_identifiers [⟨1, "kits"⟩] [] "nope" (-2) []
          = .setNotFound "nope" [])
      ∧ (∀ setId, fetchSet [⟨1, "kits"⟩] "kits" = some setId →
        mint_identifiers [⟨1, "kits"⟩] [] "kits" (-2) []
          = .ok [] [] [])) :=
  ⟨by decide,
    (mint_negative_n [⟨1, "kits"⟩] [] "nope" (-2) [] (by decide)).1,
    (mint_negative_n [⟨1, "kits"⟩] [] "kits" (-2) [] (by decide)).2⟩

/-- C2: inside the minting loop, any number `k` of consecutive barcode
exclusion conflicts on the current slot is absorbed: no error reaches
the caller, the minted list and the identifier table are exactly as
before the failed attempts (the savepoint rollback leaves no row), the
per-slot retry counter for the current slot `len(minted) + 1` is bumped
once per conflict, and the loop goes on retrying the same slot — with
no cap, since this holds for every `k`. -/
theorem mint_conflict_absorbed (setId : Nat) (n : Int)
    (table minted : List IdentifierRow) (failures : List (Nat × Nat))
    (rest : List InsertOutcome) (k : Nat)
    (h : (minted.length : Int) < n) :
    mintLoop setId n table minted failures
        (List.replicate k .exclusionViolation ++ rest)
      = mintLoop setId n table minted
          ((fun fs => bumpFailure fs (minted.length + 1))^[k] failures)
          rest := by
  induction k generalizing failures with
  | zero => simp
  | succ k ih =>
    rw [List.replicate_succ, List.cons_append, Function.iterate_succ_apply]
    rw [show mintLoop setId n table minted failures
          (.exclusionViolation ::
            (List.replicate k .exclusionViolation ++ rest))
        = mintLoop setId n table minted
            (bumpFailure failures (minted.length + 1))
            (List.replicate k .exclusionViolation ++ rest)
      from by simp [mintLoop, h]]
    exact ih (bumpFailure failures (minted.length + 1))

theorem mint_conflict_absorbed_witness :
    ((([] : List IdentifierRow).length : Int) < 1)
    ∧ mintLoop 1 1 [] [] []
        (List.replicate 2 .exclusionViolation ++ [.success "u" "b" 5])
      = mintLoop 1 1 [] [] ((fun fs => bumpFailure fs 1)^[2] [])
          [.success "u" "b" 5] :=
  ⟨by decide,
    mint_conflict_absorbed 1 1 [] [] [] [.success "u" "b" 5] 2 (by decide)⟩

/-- C4: when the lookup matches zero existing samples, `upsert_sample`
appends exactly one new row — carrying the supplied identifier and
collection identifier, the parsed collection date (`date_or_null`,
which is null when the date is absent or unparsable), the supplied
encounter id and the supplied details verbatim — and returns that row
with status "created". -/
theorem upsert_created (db : List Sample) (nextId : Nat) (ui : Bool)
    (idf cid cd : Option String) (eid : Option Int)
    (det : List (String × Jval)) (date_or_null : Option String → Option Nat)
    (h : db.filter (sampleMatches idf cid) = []) :
    upsert_sample db nextId ui idf cid cd eid det date_or_null
      = .ok (db ++ [⟨nextId, idf, cid, date_or_null cd, eid, some det⟩])
          ⟨nextId, idf, cid, eid⟩ "created" := by
  simp only [upsert_sample, h]
  rfl

theorem upsert_created_witness :
    ([⟨5, some "B", none, none, none, none⟩] : List Sample).filter
        (sampleMatches (some "A") (some "K")) = []
    ∧ upsert_sample [⟨5, some "B", none, none, none, none⟩] 6 false
        (some "A") (some "K") (some "2021-01-01") (some 9)
        [("x", .num 1)] (fun _ => some 20210101)
      = .ok [⟨5, some "B", none, none, none, none⟩,
             ⟨6, some "A", some "K", some 20210101, some 9,
               some [("x", .num 1)]⟩]
          ⟨6, some "A", some "K", some 9⟩ "created" :=
  ⟨rfl, upsert_created [⟨5, some "B", none, none, none, none⟩] 6 false
    (some "A") (some "K") (some "2021-01-01") (some 9)
    [("x", .num 1)] (fun _ => some 20210101) rfl⟩

/-- C5: when the lookup matches two or more rows, `upsert_sample`
raises the more-than-one-sample exception carrying the matched rows
(including their ids), and the table is unchanged: neither the insert
nor the update runs. -/
theorem upsert_ambiguous (db : List Sample) (nextId : Nat) (ui : Bool)
    (idf cid cd : Option String) (eid : Option Int)
    (det : List (String × Jval)) (date_or_null : Option String → Option Nat)
    (s1 s2 : Sample) (rest : List Sample)
    (h : db.filter (sampleMatches idf cid) = s1 :: s2 :: rest) :
    upsert_sample db nextId ui idf cid cd eid det date_or_null
      = .ambiguous db ((s1 :: s2 :: rest).map sampleRef) := by
  simp only [upsert_sample, h]

theorem upsert_ambiguous_witness :
    ([⟨1, some "A", none, none, none, none⟩,
      ⟨2, none, some "K", none, none, none⟩] : List Sample).filter
        (sampleMatches (some "A") (some "K"))
      = [⟨1, some "A", none, none, none, none⟩,
         ⟨2, none, some "K", none, none, none⟩]
    ∧ upsert_sample
        [⟨1, some "A", none, none, none, none⟩,
         ⟨2, none, some "K", none, none, none⟩] 3 true
        (some "A") (some "K") none none [] (fun _ => none)
      = .ambiguous
          [⟨1, some "A", none, none, none, none⟩,
           ⟨2, none, some "K", none, none, none⟩]
          [⟨1, some "A", none, none⟩, ⟨2, none, some "K", none⟩] :=
  ⟨rfl, upsert_ambiguous
    [⟨1, some "A", none, none, none, none⟩,
     ⟨2, none, some "K", none, none, none⟩] 3 true
    (some "A") (some "K") none none [] (fun _ => none)
    ⟨1, some "A", none, none, none, none⟩
    ⟨2, none, some "K", none, none, none⟩ [] rfl⟩

/-- C9: a NULL never compares equal under the SQL lookup predicate, so
with both natural keys null the lookup matches no row of any table and
every such call takes the created branch: it appends a fresh sample
with both keys null and returns status "created", never "updated",
whatever rows (null-keyed ones included) already exist. -/
theorem upsert_null_keys_always_creates (db : List Sample) (nextId : Nat)
    (ui : Bool) (cd : Option String) (eid : Option Int)
    (det : List (String × Jval))
    (date_or_null : Option String → Option Nat) :
    (∀ s : Sample, sampleMatches none none s = false)
    ∧ upsert_sample db nextId ui none none cd eid det date_or_null
      = .ok (db ++ [⟨nextId, none, none, date_or_null cd, eid, some det⟩])
          ⟨nextId, none, none, eid⟩ "created" := by
  have hm : ∀ s : Sample, sampleMatches none none s = false := by
    intro s
    cases hsi : s.identifier <;> cases hsc : s.collection_identifier <;>
      simp [sampleMatches, sqlEqOpt, hsi, hsc]
  refine ⟨hm, ?_⟩
  have hfil : db.filter (sampleMatches none none) = [] := by
    apply List.filter_eq_nil_iff.mpr
    intro a _
    simp [hm a]
  simp only [upsert_sample, hfil]
  rfl

/-- C3: when the lookup matches exactly one sample `s`, the update
branch runs: the table gets the `set` clause (`applyUpdate`) applied to
the matched id, the updated row is returned with status "updated", and
on that row `collected` keeps its old value unless the supplied
collection date parses to a non-null date, `encounter_id` keeps its old
value unless the supplied one is non-null, and `details` is the
existing details (empty object when null) shallow-merged with the
supplied details: at every top-level key the supplied object wins when
it has the key, and the existing value survives otherwise. -/
theorem upsert_updated_semantics (db : List Sample) (nextId : Nat)
    (ui : Bool) (idf cid cd : Option String) (eid : Option Int)
    (det : List (String × Jval)) (date_or_null : Option String → Option Nat)
    (s : Sample)
    (h : db.filter (sampleMatches idf cid) = [s]) :
    upsert_sample db nextId ui idf cid cd eid det date_or_null
      = .ok (db.map (fun r => if r.id == s.id
              then applyUpdate ui idf cid (date_or_null cd) eid det r
              else r))
          (sampleRef (applyUpdate ui idf cid (date_or_null cd) eid det s))
          "updated"
    ∧ (date_or_null cd = none →
        (applyUpdate ui idf cid (date_or_null cd) eid det s).collected
          = s.collected)
    ∧ (∀ d, date_or_null cd = some d →
        (applyUpdate ui idf cid (date_or_null cd) eid det s).collected
          = some d)
    ∧ (eid = none →
        (applyUpdate ui idf cid (date_or_null cd) eid det s).encounter_id
          = s.encounter_id)
    ∧ (∀ e, eid = some e →
        (applyUpdate ui idf cid (date_or_null cd) eid det s).encounter_id
          = some e)
    ∧ ∃ merged,
        (applyUpdate ui idf cid (date_or_null cd) eid det s).details
          = some merged
        ∧ ∀ k, jLookup k merged
            = (jLookup k det).or (jLookup k (s.details.getD [])) := by
  refine ⟨?_, ?_, ?_, ?_, ?_, ?_⟩
  · simp only [upsert_sample, h]
  · intro hp
    simp [applyUpdate, hp]
  · intro d hp
    simp [applyUpdate, hp]
  · intro he
    simp [applyUpdate, he]
  · intro e he
    simp [applyUpdate, he]
  · exact ⟨jsonbConcat (s.details.getD []) det, rfl,
      fun k => jLookup_jsonbConcat k (s.details.getD []) det⟩

theorem upsert_updated_semantics_witness :
    ([⟨7, some "A", some "K", some 3, some 9,
        some [("x", .num 1), ("y", .num 2)]⟩] : List Sample).filter
        (sampleMatches (some "A") none)
      = [⟨7, some "A", some "K", some 3, some 9,
          some [("x", .num 1), ("y", .num 2)]⟩]
    ∧ (upsert_sample
        [⟨7, some "A", some "K", some 3, some 9,
          some [("x", .num 1), ("y", .num 2)]⟩] 8 false
        (some "A") none none none [("x", .num 5)] (fun _ => none)
      = .ok ([⟨7, some "A", some "K", some 3, some 9,
              some [("x", .num 1), ("y", .num 2)]⟩].map
              (fun r => if r.id == 7
                then applyUpdate false (some "A") none none none
                  [("x", .num 5)] r
                else r))
          (sampleRef (applyUpdate false (some "A") none none none
            [("x", .num 5)]
            ⟨7, some "A", some "K", some 3, some 9,
              some [("x", .num 1), ("y", .num 2)]⟩))
          "updated"
      ∧ ((fun _ => (none : Option Nat)) (none : Option String) = none →
          (applyUpdate false (some "A") none none none [("x", .num 5)]
            ⟨7, some "A", some "K", some 3, some 9,
              some [("x", .num 1), ("y", .num 2)]⟩).collected = some 3)
      ∧ (∀ d, (fun _ => (none : Option Nat)) (none : Option String) = some d →
          (applyUpdate false (some "A") none none none [("x", .num 5)]
            ⟨7, some "A", some "K", some 3, some 9,
              some [("x", .num 1), ("y", .num 2)]⟩).collected = some d)
      ∧ ((none : Option Int) = none →
          (applyUpdate false (some "A") none none none [("x", .num 5)]
            ⟨7, some "A", some "K", some 3, some 9,
              some [("x", .num 1), ("y", .num 2)]⟩).encounter_id = some 9)
      ∧ (∀ e, (none : Option Int) = some e →
          (applyUpdate false (some "A") none none none [("x", .num 5)]
            ⟨7, some "A", some "K", some 3, some 9,
              some [("x", .num 1), ("y", .num 2)]⟩).encounter_id = some e)
      ∧ ∃ merged,
          (applyUpdate false (some "A") none none none [("x", .num 5)]
            ⟨7, some "A", some "K", some 3, some 9,
              some [("x", .num 1), ("y", .num 2)]⟩).details = some merged
          ∧ ∀ k, jLookup k merged
              = (jLookup k [("x", .num 5)]).or
                  (jLookup k [("x", .num 1), ("y", .num 2)])) := by
  refine ⟨rfl, ?_⟩
  have := upsert_updated_semantics
    [⟨7, some "A", some "K", some 3, some 9,
      some [("x", .num 1), ("y", .num 2)]⟩] 8 false
    (some "A") none none none [("x", .num 5)] (fun _ => none)
    ⟨7, some "A", some "K", some 3, some 9,
      some [("x", .num 1), ("y", .num 2)]⟩ rfl
  exact this

/-- C7: in the update branch, `identifier` and `collection_identifier` of the matched row are overwritten with the supplied values when
`update_identifiers` is true and left unchanged when it is false, while
the row id and all the other updated fields — `collected`,
`encounter_id`, `details` — come out identical under either flag
value. -/
theorem upsert_update_identifiers_flag (db : List Sample) (nextId : Nat)
    (idf cid cd : Option String) (eid : Option Int)
    (det : List (String × Jval)) (date_or_null : Option String → Option Nat)
    (s : Sample)
    (h : db.filter (sampleMatches idf cid) = [s]) :
    ∃ st sf : Sample,
      upsert_sample db nextId true idf cid cd eid det date_or_null
        = .ok (db.map (fun r => if r.id == s.id
                then applyUpdate true idf cid (date_or_null cd) eid det r
                else r))
            (sampleRef st) "updated"
      ∧ upsert_sample db nextId false idf cid cd eid det date_or_null
        = .ok (db.map (fun r => if r.id == s.id
                then applyUpdate false idf cid (date_or_null cd) eid det r
                else r))
            (sampleRef sf) "updated"
      ∧ st.identifier = idf ∧ st.collection_identifier = cid
      ∧ sf.identifier = s.identifier
      ∧ sf.collection_identifier = s.collection_identifier
      ∧ st.id = sf.id ∧ st.collected = sf.collected
      ∧ st.encounter_id = sf.encounter_id ∧ st.details = sf.details := by
  refine ⟨applyUpdate true idf cid (date_or_null cd) eid det s,
    applyUpdate false idf cid (date_or_null cd) eid det s,
    ?_, ?_, rfl, rfl, rfl, rfl, rfl, rfl, rfl, rfl⟩
  · simp only [upsert_sample, h]
  · simp only [upsert_sample, h]

theorem upsert_update_identifiers_flag_witness :
    ([⟨4, some "A", some "K1", none, none, none⟩] : List Sample).filter
        (sampleMatches (some "A") (some "K2"))
      = [⟨4, some "A", some "K1", none, none, none⟩]
    ∧ ∃ st sf : Sample,
      upsert_sample [⟨4, some "A", some "K1", none, none, none⟩] 5 true
          (some "A") (some "K2") none none [] (fun _ => none)
        = .ok ([⟨4, some "A", some "K1", none, none, none⟩].map
                (fun r => if r.id == 4
                  then applyUpdate true (some "A") (some "K2") none none [] r
                  else r))
            (sampleRef st) "updated"
      ∧ upsert_sample [⟨4, some "A", some "K1", none, none, none⟩] 5 false
          (some "A") (some "K2") none none [] (fun _ => none)
        = .ok ([⟨4, some "A", some "K1", none, none, none⟩].map
                (fun r => if r.id == 4
                  then applyUpdate false (some "A") (some "K2") none none [] r
                  else r))
            (sampleRef sf) "updated"
      ∧ st.identifier = some "A" ∧ st.collection_identifier = some "K2"
      ∧ sf.identifier = some "A" ∧ sf.collection_identifier = some "K1"
      ∧ st.id = sf.id ∧ st.collected = sf.collected
      ∧ st.encounter_id = sf.encounter_id ∧ st.details = sf.details :=
  ⟨rfl, upsert_update_identifiers_flag
    [⟨4, some "A", some "K1", none, none, none⟩] 5
    (some "A") (some "K2") none none [] (fun _ => none)
    ⟨4, some "A", some "K1", none, none, none⟩ rfl⟩
